import Mathlib

/-!
Shallow embedding of the stat-wizardry-hub prediction/statistics core.

The definitions below are translated from the TypeScript sources:
* `src/services/advanced-statistics.ts` (`calculateBasicStats`, `calculateDetailedStats`)
* `src/services/prediction-engine.ts` (`getTeamFeatures`, `getHeadToHeadFeatures`,
  `getDefaultTransitionMatrix`, `getConfidenceLevel`, metadata assembly in `predict`)
* `src/hooks/use-prediction.ts` (`predictBatch`)

JavaScript numbers appearing as match counts are modelled as `Nat`; derived
averages/percentages are modelled as `ℚ`.  `Number(x.toFixed(1))` on the
non-negative values occurring here is modelled as rounding to the nearest
multiple of 1/10 (ties upward), ditto `toFixed(2)` with 1/100.  Nullable
database columns are modelled as `Option`; querying is modelled by passing
the query result list (most recent first) as an explicit argument.
-/

namespace StatWizardry

/-- Full-time result tag of a match: home win, draw, away win. -/
inductive MatchResult
  | H
  | D
  | A
deriving DecidableEq, Repr

/-- Row of the `matches` table, as consumed by the statistics and prediction code
(fields the core reads). Half-time goals are nullable in the schema. -/
structure Match where
  home_team : String
  away_team : String
  full_time_home_goals : Nat
  full_time_away_goals : Nat
  half_time_home_goals : Option Nat
  half_time_away_goals : Option Nat
  result_computed : MatchResult
  btts_computed : Bool
  comeback_computed : Bool
  match_time : Nat
deriving DecidableEq, Repr

/-- Model of `Number(x.toFixed(1))` for the non-negative rationals appearing here:
round to the nearest tenth, ties rounded up. -/
def round1 (q : ℚ) : ℚ := ((round (q * 10) : ℤ) : ℚ) / 10

/-- Model of `Number(x.toFixed(2))`: round to the nearest hundredth, ties up. -/
def round2 (q : ℚ) : ℚ := ((round (q * 100) : ℤ) : ℚ) / 100

/-- `MatchStats` record from `src/lib/supabase.ts`. -/
structure MatchStats where
  total_matches : Nat
  home_wins : Nat
  draws : Nat
  away_wins : Nat
  btts_count : Nat
  comeback_count : Nat
  avg_goals : ℚ
  home_win_percentage : ℚ
  draw_percentage : ℚ
  away_win_percentage : ℚ
  btts_percentage : ℚ
  comeback_percentage : ℚ
deriving DecidableEq, Repr

/-- Embedding of `calculateBasicStats` from `src/services/advanced-statistics.ts`. -/
def calculateBasicStats (ms : List Match) : MatchStats :=
  if ms.length = 0 then
    { total_matches := 0, home_wins := 0, draws := 0, away_wins := 0,
      btts_count := 0, comeback_count := 0, avg_goals := 0,
      home_win_percentage := 0, draw_percentage := 0, away_win_percentage := 0,
      btts_percentage := 0, comeback_percentage := 0 }
  else
    let totalMatches := ms.length
    let homeWins := (ms.filter (fun m => m.result_computed == .H)).length
    let draws := (ms.filter (fun m => m.result_computed == .D)).length
    let awayWins := (ms.filter (fun m => m.result_computed == .A)).length
    let bttsCount := (ms.filter (fun m => m.btts_computed == true)).length
    let comebackCount := (ms.filter (fun m => m.comeback_computed == true)).length
    let totalGoals : Nat := ms.foldl
      (fun sum m => sum + m.full_time_home_goals + m.full_time_away_goals) 0
    let avgGoals : ℚ := (totalGoals : ℚ) / (totalMatches : ℚ)
    { total_matches := totalMatches,
      home_wins := homeWins,
      draws := draws,
      away_wins := awayWins,
      btts_count := bttsCount,
      comeback_count := comebackCount,
      avg_goals := round1 avgGoals,
      home_win_percentage := round1 ((homeWins : ℚ) / (totalMatches : ℚ) * 100),
      draw_percentage := round1 ((draws : ℚ) / (totalMatches : ℚ) * 100),
      away_win_percentage := round1 ((awayWins : ℚ) / (totalMatches : ℚ) * 100),
      btts_percentage := round1 ((bttsCount : ℚ) / (totalMatches : ℚ) * 100),
      comeback_percentage := round1 ((comebackCount : ℚ) / (totalMatches : ℚ) * 100) }

/-- Scoreline key string "H-A" built by `calculateDetailedStats` for the
`resultFrequency` object: `` `${match.full_time_home_goals}-${match.full_time_away_goals}` ``. -/
def scorelineKey (m : Match) : String :=
  toString m.full_time_home_goals ++ "-" ++ toString m.full_time_away_goals

/-- One step of the JavaScript object update
`resultFrequency[result] = (resultFrequency[result] || 0) + 1`, on an
association list in key-insertion order (non-index string keys of a JS object
enumerate in insertion order). -/
def insertFrequency : List (String × Nat) → String → List (String × Nat)
  | [], k => [(k, 1)]
  | (k', c) :: rest, k =>
      if k' = k then (k', c + 1) :: rest else (k', c) :: insertFrequency rest k

/-- The `resultFrequency` object of `calculateDetailedStats` after the
`matches.forEach` loop, as `Object.entries` enumerates it. -/
def resultFrequency (ms : List Match) : List (String × Nat) :=
  ms.foldl (fun acc m => insertFrequency acc (scorelineKey m)) []

/-- Entry of the `frequentResults` array. -/
structure ResultFreq where
  result : String
  count : Nat
  percentage : ℚ
deriving DecidableEq, Repr

/-- Insert into a list keeping `r`-order: `x` is placed before the first
element `y` with `r x y`. -/
def ordInsert (r : α → α → Bool) (x : α) : List α → List α
  | [] => [x]
  | y :: ys => if r x y then x :: y :: ys else y :: ordInsert r x ys

/-- Stable insertion sort; models `Array.prototype.sort` (stable per ES2019)
with a comparator inducing the boolean order `r`. -/
def sortD (r : α → α → Bool) : List α → List α
  | [] => []
  | x :: xs => ordInsert r x (sortD r xs)

/-- Order induced by the comparator `(a, b) => b.count - a.count`:
count descending, equal counts keep their relative (insertion) order. -/
def byCountDesc (a b : ResultFreq) : Bool := b.count ≤ a.count

/-- The `frequentResults` computation of `calculateDetailedStats`:
map the grouped frequencies, sort by count descending (stable), take 4. -/
def frequentResultsOf (ms : List Match) : List ResultFreq :=
  let totalMatches := ms.length
  (sortD byCountDesc ((resultFrequency ms).map
    (fun p => ⟨p.1, p.2, round1 ((p.2 : ℚ) / (totalMatches : ℚ) * 100)⟩))).take 4

/-- The `goalStats` record of `DetailedMatchStats`. -/
structure GoalStats where
  home_goals_total : Nat
  away_goals_total : Nat
  home_goals_per_match : ℚ
  away_goals_per_match : ℚ
  home_clean_sheets : Nat
  away_clean_sheets : Nat
  home_clean_sheet_percentage : ℚ
  away_clean_sheet_percentage : ℚ
deriving DecidableEq, Repr

/-- The `overUnder` record of `DetailedMatchStats`. -/
structure OverUnderStats where
  over_25_count : Nat
  under_25_count : Nat
  over_25_percentage : ℚ
  under_25_percentage : ℚ
  over_35_count : Nat
  over_35_percentage : ℚ
deriving DecidableEq, Repr

/-- Mutable counters of the half-time analysis loop in `calculateDetailedStats`. -/
structure HTCounts where
  htHomeLeads : Nat
  htAwayLeads : Nat
  htDraws : Nat
  htHomeLeadToWin : Nat
  htHomeLeadToDraw : Nat
  htHomeLeadToLoss : Nat
  htAwayLeadToWin : Nat
  htAwayLeadToDraw : Nat
  htAwayLeadToLoss : Nat
deriving DecidableEq, Repr

/-- All-zero initial counters. -/
def HTCounts.zero : HTCounts := ⟨0, 0, 0, 0, 0, 0, 0, 0, 0⟩

/-- One iteration of the `matches.forEach` half-time loop.  `|| 0` on the
nullable half-time goals is `Option.getD 0`; the inner `else` branches catch
the remaining result tag ('A' in the home-lead branch, 'H' in the away-lead
branch). -/
def htStep (c : HTCounts) (m : Match) : HTCounts :=
  let htHomeGoals := m.half_time_home_goals.getD 0
  let htAwayGoals := m.half_time_away_goals.getD 0
  if htAwayGoals < htHomeGoals then
    match m.result_computed with
    | .H => { c with htHomeLeads := c.htHomeLeads + 1,
                     htHomeLeadToWin := c.htHomeLeadToWin + 1 }
    | .D => { c with htHomeLeads := c.htHomeLeads + 1,
                     htHomeLeadToDraw := c.htHomeLeadToDraw + 1 }
    | .A => { c with htHomeLeads := c.htHomeLeads + 1,
                     htHomeLeadToLoss := c.htHomeLeadToLoss + 1 }
  else if htHomeGoals < htAwayGoals then
    match m.result_computed with
    | .A => { c with htAwayLeads := c.htAwayLeads + 1,
                     htAwayLeadToWin := c.htAwayLeadToWin + 1 }
    | .D => { c with htAwayLeads := c.htAwayLeads + 1,
                     htAwayLeadToDraw := c.htAwayLeadToDraw + 1 }
    | .H => { c with htAwayLeads := c.htAwayLeads + 1,
                     htAwayLeadToLoss := c.htAwayLeadToLoss + 1 }
  else
    { c with htDraws := c.htDraws + 1 }

/-- The `halfTimeAnalysis` record of `DetailedMatchStats`. -/
structure HalfTimeAnalysis where
  ht_home_leads : Nat
  ht_away_leads : Nat
  ht_draws : Nat
  ht_home_lead_to_win : Nat
  ht_home_lead_to_draw : Nat
  ht_home_lead_to_loss : Nat
  ht_away_lead_to_win : Nat
  ht_away_lead_to_draw : Nat
  ht_away_lead_to_loss : Nat
  home_lead_hold_percentage : ℚ
  away_lead_hold_percentage : ℚ
deriving DecidableEq, Repr

/-- `DetailedMatchStats` record from `src/lib/supabase.ts`. -/
structure DetailedMatchStats where
  basic : MatchStats
  goalStats : GoalStats
  overUnder : OverUnderStats
  frequentResults : List ResultFreq
  halfTimeAnalysis : HalfTimeAnalysis
deriving DecidableEq, Repr

/-- Embedding of `calculateDetailedStats` from `src/services/advanced-statistics.ts`. -/
def calculateDetailedStats (ms : List Match) : DetailedMatchStats :=
  let basic := calculateBasicStats ms
  if ms.length = 0 then
    { basic := basic,
      goalStats := ⟨0, 0, 0, 0, 0, 0, 0, 0⟩,
      overUnder := ⟨0, 0, 0, 0, 0, 0⟩,
      frequentResults := [],
      halfTimeAnalysis := ⟨0, 0, 0, 0, 0, 0, 0, 0, 0, 0, 0⟩ }
  else
    let totalMatches := ms.length
    let homeGoalsTotal : Nat := ms.foldl (fun s m => s + m.full_time_home_goals) 0
    let awayGoalsTotal : Nat := ms.foldl (fun s m => s + m.full_time_away_goals) 0
    let homeCleanSheets := (ms.filter (fun m => m.full_time_away_goals == 0)).length
    let awayCleanSheets := (ms.filter (fun m => m.full_time_home_goals == 0)).length
    let over25Count := (ms.filter (fun m =>
      decide ((2.5 : ℚ) < ((m.full_time_home_goals + m.full_time_away_goals : Nat) : ℚ)))).length
    let over35Count := (ms.filter (fun m =>
      decide ((3.5 : ℚ) < ((m.full_time_home_goals + m.full_time_away_goals : Nat) : ℚ)))).length
    let c := ms.foldl htStep HTCounts.zero
    { basic := basic,
      goalStats :=
        { home_goals_total := homeGoalsTotal,
          away_goals_total := awayGoalsTotal,
          home_goals_per_match := round2 ((homeGoalsTotal : ℚ) / (totalMatches : ℚ)),
          away_goals_per_match := round2 ((awayGoalsTotal : ℚ) / (totalMatches : ℚ)),
          home_clean_sheets := homeCleanSheets,
          away_clean_sheets := awayCleanSheets,
          home_clean_sheet_percentage :=
            round1 ((homeCleanSheets : ℚ) / (totalMatches : ℚ) * 100),
          away_clean_sheet_percentage :=
            round1 ((awayCleanSheets : ℚ) / (totalMatches : ℚ) * 100) },
      overUnder :=
        { over_25_count := over25Count,
          under_25_count := totalMatches - over25Count,
          over_25_percentage := round1 ((over25Count : ℚ) / (totalMatches : ℚ) * 100),
          under_25_percentage :=
            round1 (((totalMatches - over25Count : Nat) : ℚ) / (totalMatches : ℚ) * 100),
          over_35_count := over35Count,
          over_35_percentage := round1 ((over35Count : ℚ) / (totalMatches : ℚ) * 100) },
      frequentResults := frequentResultsOf ms,
      halfTimeAnalysis :=
        { ht_home_leads := c.htHomeLeads,
          ht_away_leads := c.htAwayLeads,
          ht_draws := c.htDraws,
          ht_home_lead_to_win := c.htHomeLeadToWin,
          ht_home_lead_to_draw := c.htHomeLeadToDraw,
          ht_home_lead_to_loss := c.htHomeLeadToLoss,
          ht_away_lead_to_win := c.htAwayLeadToWin,
          ht_away_lead_to_draw := c.htAwayLeadToDraw,
          ht_away_lead_to_loss := c.htAwayLeadToLoss,
          home_lead_hold_percentage :=
            if 0 < c.htHomeLeads then
              round1 ((c.htHomeLeadToWin : ℚ) / (c.htHomeLeads : ℚ) * 100)
            else 0,
          away_lead_hold_percentage :=
            if 0 < c.htAwayLeads then
              round1 ((c.htAwayLeadToWin : ℚ) / (c.htAwayLeads : ℚ) * 100)
            else 0 } }

/-- `TransitionMatrix` from `src/types/prediction.ts`. -/
structure TransitionMatrix where
  ht_h_to_ft_h : ℚ
  ht_h_to_ft_d : ℚ
  ht_h_to_ft_a : ℚ
  ht_d_to_ft_h : ℚ
  ht_d_to_ft_d : ℚ
  ht_d_to_ft_a : ℚ
  ht_a_to_ft_h : ℚ
  ht_a_to_ft_d : ℚ
  ht_a_to_ft_a : ℚ
deriving DecidableEq, Repr

/-- `PredictionEngine.getDefaultTransitionMatrix`. -/
def getDefaultTransitionMatrix : TransitionMatrix :=
  { ht_h_to_ft_h := 0.65, ht_h_to_ft_d := 0.25, ht_h_to_ft_a := 0.10,
    ht_d_to_ft_h := 0.35, ht_d_to_ft_d := 0.30, ht_d_to_ft_a := 0.35,
    ht_a_to_ft_h := 0.10, ht_a_to_ft_d := 0.25, ht_a_to_ft_a := 0.65 }

/-- `PredictionEngine.calculateTransitionMatrix`; the source body is a
placeholder returning the default matrix. -/
def calculateTransitionMatrix (_ms : List Match) : TransitionMatrix :=
  getDefaultTransitionMatrix

/-- Result record of `PredictionEngine.getHeadToHeadFeatures`. -/
structure H2HFeatures where
  matches_played : Nat
  home_advantage : ℚ
  avg_goals : ℚ
  btts_rate : ℚ
  transition_matrix : TransitionMatrix
deriving DecidableEq, Repr

/-- Embedding of `PredictionEngine.getHeadToHeadFeatures`; the supabase query
result (up to 10 most recent head-to-head matches, most recent first) is the
`h2hMatches` argument. -/
def getHeadToHeadFeatures (homeTeam awayTeam : String) (h2hMatches : List Match) :
    H2HFeatures :=
  if h2hMatches.length = 0 then
    { matches_played := 0, home_advantage := 0, avg_goals := 0, btts_rate := 0,
      transition_matrix := getDefaultTransitionMatrix }
  else
    let homeWins := (h2hMatches.filter (fun m =>
      (m.home_team == homeTeam && m.result_computed == .H) ||
      (m.away_team == homeTeam && m.result_computed == .A))).length
    let totalGoals : Nat := h2hMatches.foldl
      (fun s m => s + m.full_time_home_goals + m.full_time_away_goals) 0
    { matches_played := h2hMatches.length,
      home_advantage := (homeWins : ℚ) / (h2hMatches.length : ℚ),
      avg_goals := (totalGoals : ℚ) / (h2hMatches.length : ℚ),
      btts_rate := ((h2hMatches.filter (fun m => m.btts_computed)).length : ℚ) /
        (h2hMatches.length : ℚ),
      transition_matrix := calculateTransitionMatrix h2hMatches }

/-- Streak classification from `src/types/prediction.ts`. -/
inductive StreakType
  | WIN
  | DRAW
  | LOSS
  | MIXED
deriving DecidableEq, Repr

/-- `PredictionEngine.calculateStreak`; the source body is a placeholder
returning 0. -/
def calculateStreak (_ms : List Match) (_teamName : String) : Int := 0

/-- `PredictionEngine.getStreakType`; the source body returns 'MIXED'. -/
def getStreakType (_ms : List Match) (_teamName : String) : StreakType := .MIXED

/-- `PredictionEngine.calculateMomentum`; the source body returns 0. -/
def calculateMomentum (_ms : List Match) (_teamName : String) : ℚ := 0

/-- `PredictionEngine.calculateLeadHolding`; the source body returns 50. -/
def calculateLeadHolding (_ms : List Match) (_teamName : String) : ℚ := 50

/-- `FormFeatures` from `src/types/prediction.ts`. -/
structure FormFeatures where
  recent_form_home : List ℚ
  recent_form_away : List ℚ
  recent_form_overall : List ℚ
  current_streak : Int
  streak_type : StreakType
  momentum_score : ℚ
deriving DecidableEq, Repr

/-- `GoalFeatures` from `src/types/prediction.ts`. -/
structure GoalFeatures where
  avg_goals_scored_home : ℚ
  avg_goals_scored_away : ℚ
  avg_goals_conceded_home : ℚ
  avg_goals_conceded_away : ℚ
  btts_percentage_home : ℚ
  btts_percentage_away : ℚ
  clean_sheet_percentage_home : ℚ
  clean_sheet_percentage_away : ℚ
  comeback_ability : ℚ
  lead_holding : ℚ
deriving DecidableEq, Repr

/-- `HistoricalFeatures` from `src/types/prediction.ts`; `head_to_head_record`
is left `[]` by `getTeamFeatures` ("filled separately"), modelled as a list of
opponent names for the record entries. -/
structure HistoricalFeatures where
  total_matches_played : Nat
  home_win_percentage : ℚ
  away_win_percentage : ℚ
  draw_percentage : ℚ
  head_to_head_record : List String
deriving DecidableEq, Repr

/-- `TeamFeatures` from `src/types/prediction.ts`. -/
structure TeamFeatures where
  team_id : String
  team_name : String
  last_updated : String
  form_features : FormFeatures
  goal_features : GoalFeatures
  historical_features : HistoricalFeatures
deriving DecidableEq, Repr

/-- Embedding of `PredictionEngine.getTeamFeatures`.  The two supabase query
results (up to the 10 most recent matches of the team played home, resp. away,
most recent first) are `homeData` and `awayData`; `lastUpdated` stands for
`new Date().toISOString()`. -/
def getTeamFeatures (teamName : String) (homeData awayData : List Match)
    (lastUpdated : String) : TeamFeatures :=
  let homeForm := (homeData.take 5).map (fun m =>
    if m.result_computed = .H then (1 : ℚ) else
    if m.result_computed = .D then 0.5 else 0)
  let awayForm := (awayData.take 5).map (fun m =>
    if m.result_computed = .A then (1 : ℚ) else
    if m.result_computed = .D then 0.5 else 0)
  let homeGoalsScored : Nat := homeData.foldl (fun s m => s + m.full_time_home_goals) 0
  let homeGoalsConceded : Nat := homeData.foldl (fun s m => s + m.full_time_away_goals) 0
  let awayGoalsScored : Nat := awayData.foldl (fun s m => s + m.full_time_away_goals) 0
  let awayGoalsConceded : Nat := awayData.foldl (fun s m => s + m.full_time_home_goals) 0
  let allData := homeData ++ awayData
  { team_id := teamName,
    team_name := teamName,
    last_updated := lastUpdated,
    form_features :=
      { recent_form_home := homeForm,
        recent_form_away := awayForm,
        recent_form_overall := (homeForm ++ awayForm).take 5,
        current_streak := calculateStreak allData teamName,
        streak_type := getStreakType allData teamName,
        momentum_score := calculateMomentum allData teamName },
    goal_features :=
      { avg_goals_scored_home :=
          if 0 < homeData.length then (homeGoalsScored : ℚ) / (homeData.length : ℚ) else 0,
        avg_goals_scored_away :=
          if 0 < awayData.length then (awayGoalsScored : ℚ) / (awayData.length : ℚ) else 0,
        avg_goals_conceded_home :=
          if 0 < homeData.length then (homeGoalsConceded : ℚ) / (homeData.length : ℚ) else 0,
        avg_goals_conceded_away :=
          if 0 < awayData.length then (awayGoalsConceded : ℚ) / (awayData.length : ℚ) else 0,
        btts_percentage_home :=
          ((homeData.filter (fun m => m.btts_computed)).length : ℚ) /
            (max homeData.length 1 : ℚ) * 100,
        btts_percentage_away :=
          ((awayData.filter (fun m => m.btts_computed)).length : ℚ) /
            (max awayData.length 1 : ℚ) * 100,
        clean_sheet_percentage_home :=
          ((homeData.filter (fun m => m.full_time_away_goals == 0)).length : ℚ) /
            (max homeData.length 1 : ℚ) * 100,
        clean_sheet_percentage_away :=
          ((awayData.filter (fun m => m.full_time_home_goals == 0)).length : ℚ) /
            (max awayData.length 1 : ℚ) * 100,
        comeback_ability :=
          ((allData.filter (fun m => m.comeback_computed)).length : ℚ) /
            (max allData.length 1 : ℚ) * 100,
        lead_holding := calculateLeadHolding allData teamName },
    historical_features :=
      { total_matches_played := homeData.length + awayData.length,
        home_win_percentage :=
          ((homeData.filter (fun m => m.result_computed == .H)).length : ℚ) /
            (max homeData.length 1 : ℚ) * 100,
        away_win_percentage :=
          ((awayData.filter (fun m => m.result_computed == .A)).length : ℚ) /
            (max awayData.length 1 : ℚ) * 100,
        draw_percentage :=
          ((allData.filter (fun m => m.result_computed == .D)).length : ℚ) /
            (max allData.length 1 : ℚ) * 100,
        head_to_head_record := [] } }

/-- Qualitative confidence tier from `src/types/prediction.ts`. -/
inductive ConfidenceLevel
  | LOW
  | MEDIUM
  | HIGH
deriving DecidableEq, Repr

/-- `PredictionEngine.getConfidenceLevel`. -/
def getConfidenceLevel (score : ℚ) : ConfidenceLevel :=
  if 0.8 ≤ score then .HIGH
  else if 0.6 ≤ score then .MEDIUM
  else .LOW

/-- `PredictionEngine.generateWarnings`; the source reads only the quality
score (its `features` argument is unused). -/
def generateWarnings (qualityScore : ℚ) : List String :=
  if qualityScore < 0.7 then ["Limitált történeti adat"] else []

/-- `PredictionMetadata` from `src/types/prediction.ts`. -/
structure PredictionMetadata where
  model_version : String
  prediction_timestamp : String
  data_quality_score : ℚ
  prediction_confidence : ConfidenceLevel
  warning_flags : List String
deriving DecidableEq, Repr

/-- The `prediction_metadata` object literal assembled in
`PredictionEngine.predict` (step 5): both `qualityScore` and the ensemble
confidence score are in scope there; the tier is produced by
`getConfidenceLevel(finalPrediction.confidence_score)`. -/
def assemblePredictionMetadata (timestamp : String) (qualityScore : ℚ)
    (confidenceScore : ℚ) : PredictionMetadata :=
  { model_version := "v1.0",
    prediction_timestamp := timestamp,
    data_quality_score := qualityScore,
    prediction_confidence := getConfidenceLevel confidenceScore,
    warning_flags := generateWarnings qualityScore }

/-- `MatchContext` from `src/types/prediction.ts`. -/
structure MatchContext where
  season : Option String
  date : Option String
  fixture_order : Option Nat
  home_venue : Option String
  competition : Option String
deriving DecidableEq, Repr

/-- `PredictionInput` from `src/types/prediction.ts`. -/
structure PredictionInput where
  home_team : String
  away_team : String
  halftime_home_goals : Option Nat
  halftime_away_goals : Option Nat
  match_context : Option MatchContext
deriving DecidableEq, Repr

/-- Probability triple and outcome block (`predictions` field of
`PredictionOutput`). -/
structure FinalPredictions where
  home_win_probability : ℚ
  draw_probability : ℚ
  away_win_probability : ℚ
  most_likely_outcome : MatchResult
  confidence_score : ℚ
deriving DecidableEq, Repr

/-- `FeatureImportance` from `src/types/prediction.ts`. -/
structure FeatureImportance where
  feature_name : String
  importance : ℚ
  value : ℚ
  description : String
deriving DecidableEq, Repr

/-- Per-model probability triple inside `ModelExplanation`. -/
structure ModelTriple where
  home_win : ℚ
  draw : ℚ
  away_win : ℚ
deriving DecidableEq, Repr

/-- `ModelExplanation` from `src/types/prediction.ts`. -/
structure ModelExplanation where
  model_name : String
  weight : ℚ
  prediction : ModelTriple
  key_features : List FeatureImportance
deriving DecidableEq, Repr

/-- `ScoreProbability` from `src/types/prediction.ts`. -/
structure ScoreProbability where
  home_goals : Nat
  away_goals : Nat
  probability : ℚ
deriving DecidableEq, Repr

/-- `scoreline_predictions` block of `PredictionOutput`. -/
structure ScorelinePredictions where
  most_likely_score : String
  score_probabilities : List ScoreProbability
deriving DecidableEq, Repr

/-- `PredictionOutput` from `src/types/prediction.ts`. -/
structure PredictionOutput where
  match_id : Option String
  predictions : FinalPredictions
  scoreline_predictions : Option ScorelinePredictions
  model_explanations : List ModelExplanation
  prediction_metadata : PredictionMetadata
deriving DecidableEq, Repr

/-- Semantics of `Promise.all(inputs.map(predict))`: resolves to the results
in input order when every element resolves, rejects (with the first rejection
reason) as soon as any element rejects. -/
def promiseAll (predict : PredictionInput → Except String PredictionOutput) :
    List PredictionInput → Except String (List PredictionOutput)
  | [] => .ok []
  | i :: t =>
    match predict i with
    | .error e => .error e
    | .ok r =>
      match promiseAll predict t with
      | .error e => .error e
      | .ok rs => .ok (r :: rs)

/-- Embedding of `predictBatch` from `src/hooks/use-prediction.ts`.  The
engine's fallible `predict` is the function argument (a rejected promise is
`Except.error`); the surrounding `catch` returns `[]`. -/
def predictBatch (predict : PredictionInput → Except String PredictionOutput)
    (inputs : List PredictionInput) : List PredictionOutput :=
  match promiseAll predict inputs with
  | .ok results => results
  | .error _ => []

/-- Occurrence count of `a` in a list. -/
def cnt [DecidableEq α] (a : α) : List α → Nat
  | [] => 0
  | b :: l => (if b = a then 1 else 0) + cnt a l

/-- Index of the first occurrence of `a` (length of the list when absent). -/
def fidx [DecidableEq α] (a : α) : List α → Nat
  | [] => 0
  | b :: l => if b = a then 0 else fidx a l + 1

/-- Deduplication keeping the first occurrence of each element, in order. -/
def dedupKF [DecidableEq α] : List α → List α
  | [] => []
  | k :: l => k :: (dedupKF l).filter (fun x => decide (x ≠ k))

/-- Outcome value of a match from `team`'s perspective (1 win, 0.5 draw, 0 loss). -/
def teamPerspectiveValue (team : String) (m : Match) : ℚ :=
  if m.home_team = team then
    (if m.result_computed = .H then 1 else if m.result_computed = .D then 0.5 else 0)
  else
    (if m.result_computed = .A then 1 else if m.result_computed = .D then 0.5 else 0)

/-- Comparator ordering matches by `match_time` descending (most recent first). -/
def byTimeDesc (a b : Match) : Bool := b.match_time ≤ a.match_time

/-- Definition following the specification's words for `recent_form_overall`
(§3 `FormFeatures`: "last-5-matches sequences as home/away/overall"): the
outcome values, from the team's perspective, of the 5 most recent of the
team's matches overall, i.e. of the home and away samples merged by time. -/
def specOverallLastFive (team : String) (homeData awayData : List Match) : List ℚ :=
  ((sortD byTimeDesc (homeData ++ awayData)).take 5).map (teamPerspectiveValue team)

/-- Replace the half-time goal fields of a match, keeping everything else. -/
def setHalfTime (hh ha : Option Nat) (m : Match) : Match :=
  { m with half_time_home_goals := hh, half_time_away_goals := ha }

/-- Concrete structurally complete prediction output used to exercise the
batch API (probability triple and metadata mirror the engine's stub values). -/
def demoOutput : PredictionOutput :=
  { match_id := none,
    predictions :=
      { home_win_probability := 0.5, draw_probability := 0.25,
        away_win_probability := 0.25, most_likely_outcome := .H,
        confidence_score := 0.75 },
    scoreline_predictions := none,
    model_explanations := [],
    prediction_metadata := assemblePredictionMetadata "t" 0.85 0.75 }

/-- Concrete fallible `predict`: rejects exactly when the home team is "FAIL"
(with the engine's error message), resolves to `demoOutput` otherwise. -/
def demoPredict (i : PredictionInput) : Except String PredictionOutput :=
  if i.home_team = "FAIL" then .error "Predikciós hiba történt" else .ok demoOutput

section Lemmas

/-- The three outcome filters partition a match list. -/
lemma outcome_filter_partition (ms : List Match) :
    (ms.filter (fun m => m.result_computed == MatchResult.H)).length +
      (ms.filter (fun m => m.result_computed == MatchResult.D)).length +
      (ms.filter (fun m => m.result_computed == MatchResult.A)).length = ms.length := by
  induction ms with
  | nil => rfl
  | cons m t ih =>
    cases h : m.result_computed <;>
      simp [List.filter_cons, h] <;> omega

/-- Rounding to one decimal moves a rational by at most 1/20. -/
lemma abs_round1_sub_le (q : ℚ) : |round1 q - q| ≤ 1 / 20 := by
  have h : |q * 10 - ((round (q * 10) : ℤ) : ℚ)| ≤ 1 / 2 := abs_sub_round (q * 10)
  have heq : round1 q - q = (((round (q * 10) : ℤ) : ℚ) - q * 10) / 10 := by
    unfold round1; ring
  rw [heq, abs_div, abs_of_pos (by norm_num : (0 : ℚ) < 10), abs_sub_comm]
  linarith

/-- Each half-time loop step adds a per-match delta to the lead/draw counters,
independently of the accumulator. -/
lemma htStep_field_add (c : HTCounts) (m : Match) :
    (htStep c m).htDraws = c.htDraws + (htStep HTCounts.zero m).htDraws ∧
    (htStep c m).htHomeLeads = c.htHomeLeads + (htStep HTCounts.zero m).htHomeLeads ∧
    (htStep c m).htAwayLeads = c.htAwayLeads + (htStep HTCounts.zero m).htAwayLeads := by
  cases hr : m.result_computed <;>
    simp only [htStep, HTCounts.zero, hr] <;>
    split_ifs <;> simp

/-- The lead/draw counters of the half-time fold are additive in the initial
accumulator. -/
lemma htFold_field_add (ms : List Match) : ∀ c : HTCounts,
    ((ms.foldl htStep c).htDraws =
      c.htDraws + (ms.foldl htStep HTCounts.zero).htDraws) ∧
    ((ms.foldl htStep c).htHomeLeads =
      c.htHomeLeads + (ms.foldl htStep HTCounts.zero).htHomeLeads) ∧
    ((ms.foldl htStep c).htAwayLeads =
      c.htAwayLeads + (ms.foldl htStep HTCounts.zero).htAwayLeads) := by
  induction ms with
  | nil => intro c; simp [HTCounts.zero]
  | cons m t ih =>
    intro c
    simp only [List.foldl_cons]
    obtain ⟨d1, d2, d3⟩ := ih (htStep c m)
    obtain ⟨e1, e2, e3⟩ := ih (htStep HTCounts.zero m)
    obtain ⟨s1, s2, s3⟩ := htStep_field_add c m
    exact ⟨by omega, by omega, by omega⟩

/-- Each half-time loop step classifies its match into exactly one of
home-lead/away-lead/draw, and the lead-to-outcome counters move in lockstep
with the lead counters. -/
lemma htStep_partition (c : HTCounts) (m : Match) :
    (htStep c m).htHomeLeads + (htStep c m).htAwayLeads + (htStep c m).htDraws =
      c.htHomeLeads + c.htAwayLeads + c.htDraws + 1 ∧
    (htStep c m).htHomeLeadToWin + (htStep c m).htHomeLeadToDraw +
        (htStep c m).htHomeLeadToLoss + c.htHomeLeads =
      c.htHomeLeadToWin + c.htHomeLeadToDraw + c.htHomeLeadToLoss +
        (htStep c m).htHomeLeads ∧
    (htStep c m).htAwayLeadToWin + (htStep c m).htAwayLeadToDraw +
        (htStep c m).htAwayLeadToLoss + c.htAwayLeads =
      c.htAwayLeadToWin + c.htAwayLeadToDraw + c.htAwayLeadToLoss +
        (htStep c m).htAwayLeads := by
  cases hr : m.result_computed <;>
    simp only [htStep, hr] <;>
    split_ifs <;> simp <;> omega

/-- Invariants of the half-time fold: total classification count grows with
the list length, and lead-to-outcome counters track the lead counters. -/
lemma htFold_invariants (ms : List Match) : ∀ c : HTCounts,
    ((ms.foldl htStep c).htHomeLeads + (ms.foldl htStep c).htAwayLeads +
        (ms.foldl htStep c).htDraws =
      c.htHomeLeads + c.htAwayLeads + c.htDraws + ms.length) ∧
    ((ms.foldl htStep c).htHomeLeadToWin + (ms.foldl htStep c).htHomeLeadToDraw +
        (ms.foldl htStep c).htHomeLeadToLoss + c.htHomeLeads =
      c.htHomeLeadToWin + c.htHomeLeadToDraw + c.htHomeLeadToLoss +
        (ms.foldl htStep c).htHomeLeads) ∧
    ((ms.foldl htStep c).htAwayLeadToWin + (ms.foldl htStep c).htAwayLeadToDraw +
        (ms.foldl htStep c).htAwayLeadToLoss + c.htAwayLeads =
      c.htAwayLeadToWin + c.htAwayLeadToDraw + c.htAwayLeadToLoss +
        (ms.foldl htStep c).htAwayLeads) := by
  induction ms with
  | nil => intro c; simp
  | cons m t ih =>
    intro c
    simp only [List.foldl_cons, List.length_cons]
    obtain ⟨i1, i2, i3⟩ := ih (htStep c m)
    obtain ⟨p1, p2, p3⟩ := htStep_partition c m
    exact ⟨by omega, by omega, by omega⟩

/-- The nine counter fields of the half-time analysis come from the fold
(also on the empty list, where both sides are 0). -/
lemma detailed_ht_counts (ms : List Match) :
    (calculateDetailedStats ms).halfTimeAnalysis.ht_home_leads =
      (ms.foldl htStep HTCounts.zero).htHomeLeads ∧
    (calculateDetailedStats ms).halfTimeAnalysis.ht_away_leads =
      (ms.foldl htStep HTCounts.zero).htAwayLeads ∧
    (calculateDetailedStats ms).halfTimeAnalysis.ht_draws =
      (ms.foldl htStep HTCounts.zero).htDraws ∧
    (calculateDetailedStats ms).halfTimeAnalysis.ht_home_lead_to_win =
      (ms.foldl htStep HTCounts.zero).htHomeLeadToWin ∧
    (calculateDetailedStats ms).halfTimeAnalysis.ht_home_lead_to_draw =
      (ms.foldl htStep HTCounts.zero).htHomeLeadToDraw ∧
    (calculateDetailedStats ms).halfTimeAnalysis.ht_home_lead_to_loss =
      (ms.foldl htStep HTCounts.zero).htHomeLeadToLoss ∧
    (calculateDetailedStats ms).halfTimeAnalysis.ht_away_lead_to_win =
      (ms.foldl htStep HTCounts.zero).htAwayLeadToWin ∧
    (calculateDetailedStats ms).halfTimeAnalysis.ht_away_lead_to_draw =
      (ms.foldl htStep HTCounts.zero).htAwayLeadToDraw ∧
    (calculateDetailedStats ms).halfTimeAnalysis.ht_away_lead_to_loss =
      (ms.foldl htStep HTCounts.zero).htAwayLeadToLoss := by
  by_cases h : ms.length = 0
  · have hms : ms = [] := List.length_eq_zero.mp h
    subst hms
    simp [calculateDetailedStats, HTCounts.zero]
  · simp [calculateDetailedStats, h]

/-- The two hold-percentage fields come from the guarded division over the
fold (also on the empty list). -/
lemma detailed_hold_percentages (ms : List Match) :
    (calculateDetailedStats ms).halfTimeAnalysis.home_lead_hold_percentage =
      (if 0 < (ms.foldl htStep HTCounts.zero).htHomeLeads then
        round1 (((ms.foldl htStep HTCounts.zero).htHomeLeadToWin : ℚ) /
          ((ms.foldl htStep HTCounts.zero).htHomeLeads : ℚ) * 100)
      else 0) ∧
    (calculateDetailedStats ms).halfTimeAnalysis.away_lead_hold_percentage =
      (if 0 < (ms.foldl htStep HTCounts.zero).htAwayLeads then
        round1 (((ms.foldl htStep HTCounts.zero).htAwayLeadToWin : ℚ) /
          ((ms.foldl htStep HTCounts.zero).htAwayLeads : ℚ) * 100)
      else 0) := by
  by_cases h : ms.length = 0
  · have hms : ms = [] := List.length_eq_zero.mp h
    subst hms
    simp [calculateDetailedStats, HTCounts.zero]
  · simp [calculateDetailedStats, h]

/-- Basic statistics ignore the half-time goal fields. -/
lemma basicStats_setHalfTime (ms : List Match) (hh ha : Option Nat) :
    calculateBasicStats (ms.map (setHalfTime hh ha)) = calculateBasicStats ms := by
  simp [calculateBasicStats, List.filter_map, List.foldl_map, Function.comp_def, setHalfTime]

/-- The frequent-results list ignores the half-time goal fields. -/
lemma frequentResultsOf_setHalfTime (ms : List Match) (hh ha : Option Nat) :
    frequentResultsOf (ms.map (setHalfTime hh ha)) = frequentResultsOf ms := by
  have hkey : resultFrequency (ms.map (setHalfTime hh ha)) = resultFrequency ms := by
    simp [resultFrequency, List.foldl_map, scorelineKey, setHalfTime]
  simp [frequentResultsOf, hkey]

/-- All full-time-derived components of `calculateDetailedStats` ignore the
half-time goal fields. -/
lemma detailed_ft_components (ms : List Match) (hh ha : Option Nat) :
    (calculateDetailedStats (ms.map (setHalfTime hh ha))).basic =
        (calculateDetailedStats ms).basic ∧
      (calculateDetailedStats (ms.map (setHalfTime hh ha))).goalStats =
        (calculateDetailedStats ms).goalStats ∧
      (calculateDetailedStats (ms.map (setHalfTime hh ha))).overUnder =
        (calculateDetailedStats ms).overUnder ∧
      (calculateDetailedStats (ms.map (setHalfTime hh ha))).frequentResults =
        (calculateDetailedStats ms).frequentResults := by
  have hb := basicStats_setHalfTime ms hh ha
  have hfr := frequentResultsOf_setHalfTime ms hh ha
  by_cases h : ms.length = 0
  · have hms : ms = [] := List.length_eq_zero.mp h
    subst hms
    simp [calculateDetailedStats]
  · simp [calculateDetailedStats, h, hb, hfr, List.filter_map, List.foldl_map,
      Function.comp_def, setHalfTime]

end Lemmas

/-- C1: for every non-empty list of match records, the three outcome
percentages of `calculateBasicStats` (each count over total, times 100,
rounded to one decimal) sum to 100 within ±0.2. -/
theorem claim_C1_outcome_percentages_sum (ms : List Match) (h : ms ≠ []) :
    |(calculateBasicStats ms).home_win_percentage +
      (calculateBasicStats ms).draw_percentage +
      (calculateBasicStats ms).away_win_percentage - 100| ≤ 2 / 10 := by
  have hlen : ¬ ms.length = 0 := by
    simpa using h
  have hn : (0 : ℚ) < (ms.length : ℚ) := by
    have : 0 < ms.length := Nat.pos_of_ne_zero hlen
    exact_mod_cast this
  simp only [calculateBasicStats, if_neg hlen]
  set hw := (ms.filter (fun m => m.result_computed == MatchResult.H)).length with hhw
  set dw := (ms.filter (fun m => m.result_computed == MatchResult.D)).length with hdw
  set aw := (ms.filter (fun m => m.result_computed == MatchResult.A)).length with haw
  have hpart : hw + dw + aw = ms.length := outcome_filter_partition ms
  set x1 := (hw : ℚ) / (ms.length : ℚ) * 100 with hx1
  set x2 := (dw : ℚ) / (ms.length : ℚ) * 100 with hx2
  set x3 := (aw : ℚ) / (ms.length : ℚ) * 100 with hx3
  have hsum : x1 + x2 + x3 = 100 := by
    have hcast : (hw : ℚ) + (dw : ℚ) + (aw : ℚ) = (ms.length : ℚ) := by
      exact_mod_cast hpart
    rw [hx1, hx2, hx3]
    field_simp
    linarith
  have h1 := abs_round1_sub_le x1
  have h2 := abs_round1_sub_le x2
  have h3 := abs_round1_sub_le x3
  have hdecomp : round1 x1 + round1 x2 + round1 x3 - 100 =
      (round1 x1 - x1) + (round1 x2 - x2) + (round1 x3 - x3) := by
    rw [← hsum]; ring
  rw [hdecomp]
  have habs1 := abs_add ((round1 x1 - x1) + (round1 x2 - x2)) (round1 x3 - x3)
  have habs2 := abs_add (round1 x1 - x1) (round1 x2 - x2)
  linarith

/-- Witness for C1 at a concrete three-match list (one win, one draw, one
away win): the hypothesis `ms ≠ []` holds and the rounded percentages
33.3 + 33.3 + 33.3 land within the tolerance. -/
theorem claim_C1_outcome_percentages_sum_witness :
    ([⟨"a", "b", 1, 0, none, none, .H, false, false, 0⟩,
      ⟨"a", "b", 1, 1, none, none, .D, false, false, 1⟩,
      ⟨"a", "b", 0, 1, none, none, .A, false, false, 2⟩] : List Match) ≠ [] ∧
    |(calculateBasicStats
        [⟨"a", "b", 1, 0, none, none, .H, false, false, 0⟩,
         ⟨"a", "b", 1, 1, none, none, .D, false, false, 1⟩,
         ⟨"a", "b", 0, 1, none, none, .A, false, false, 2⟩]).home_win_percentage +
      (calculateBasicStats
        [⟨"a", "b", 1, 0, none, none, .H, false, false, 0⟩,
         ⟨"a", "b", 1, 1, none, none, .D, false, false, 1⟩,
         ⟨"a", "b", 0, 1, none, none, .A, false, false, 2⟩]).draw_percentage +
      (calculateBasicStats
        [⟨"a", "b", 1, 0, none, none, .H, false, false, 0⟩,
         ⟨"a", "b", 1, 1, none, none, .D, false, false, 1⟩,
         ⟨"a", "b", 0, 1, none, none, .A, false, false, 2⟩]).away_win_percentage - 100| ≤
      2 / 10 :=
  ⟨by simp,
   claim_C1_outcome_percentages_sum _ (by simp)⟩

/-- C2: `calculateBasicStats` and `calculateDetailedStats` are total Lean
functions; on the empty match list each returns the all-zero structure (all
counts, percentages and averages 0, empty frequent-results list). -/
theorem claim_C2_empty_input_all_zero :
    calculateBasicStats [] =
      { total_matches := 0, home_wins := 0, draws := 0, away_wins := 0,
        btts_count := 0, comeback_count := 0, avg_goals := 0,
        home_win_percentage := 0, draw_percentage := 0, away_win_percentage := 0,
        btts_percentage := 0, comeback_percentage := 0 } ∧
    calculateDetailedStats [] =
      { basic :=
          { total_matches := 0, home_wins := 0, draws := 0, away_wins := 0,
            btts_count := 0, comeback_count := 0, avg_goals := 0,
            home_win_percentage := 0, draw_percentage := 0, away_win_percentage := 0,
            btts_percentage := 0, comeback_percentage := 0 },
        goalStats :=
          { home_goals_total := 0, away_goals_total := 0,
            home_goals_per_match := 0, away_goals_per_match := 0,
            home_clean_sheets := 0, away_clean_sheets := 0,
            home_clean_sheet_percentage := 0, away_clean_sheet_percentage := 0 },
        overUnder :=
          { over_25_count := 0, under_25_count := 0,
            over_25_percentage := 0, under_25_percentage := 0,
            over_35_count := 0, over_35_percentage := 0 },
        frequentResults := [],
        halfTimeAnalysis :=
          { ht_home_leads := 0, ht_away_leads := 0, ht_draws := 0,
            ht_home_lead_to_win := 0, ht_home_lead_to_draw := 0,
            ht_home_lead_to_loss := 0, ht_away_lead_to_win := 0,
            ht_away_lead_to_draw := 0, ht_away_lead_to_loss := 0,
            home_lead_hold_percentage := 0, away_lead_hold_percentage := 0 } } :=
  ⟨rfl, rfl⟩

/-- C10: the half-time analysis of `calculateDetailedStats` partitions the
matches (home leads + away leads + draws = number of matches), and each
lead-to-outcome triple sums to the corresponding lead count. -/
theorem claim_C10_halftime_partition (ms : List Match) :
    (calculateDetailedStats ms).halfTimeAnalysis.ht_home_leads +
      (calculateDetailedStats ms).halfTimeAnalysis.ht_away_leads +
      (calculateDetailedStats ms).halfTimeAnalysis.ht_draws = ms.length ∧
    (calculateDetailedStats ms).halfTimeAnalysis.ht_home_lead_to_win +
      (calculateDetailedStats ms).halfTimeAnalysis.ht_home_lead_to_draw +
      (calculateDetailedStats ms).halfTimeAnalysis.ht_home_lead_to_loss =
      (calculateDetailedStats ms).halfTimeAnalysis.ht_home_leads ∧
    (calculateDetailedStats ms).halfTimeAnalysis.ht_away_lead_to_win +
      (calculateDetailedStats ms).halfTimeAnalysis.ht_away_lead_to_draw +
      (calculateDetailedStats ms).halfTimeAnalysis.ht_away_lead_to_loss =
      (calculateDetailedStats ms).halfTimeAnalysis.ht_away_leads := by
  obtain ⟨b1, b2, b3, b4, b5, b6, b7, b8, b9⟩ := detailed_ht_counts ms
  obtain ⟨i1, i2, i3⟩ := htFold_invariants ms HTCounts.zero
  simp only [show HTCounts.zero.htHomeLeads = 0 from rfl,
    show HTCounts.zero.htAwayLeads = 0 from rfl,
    show HTCounts.zero.htDraws = 0 from rfl,
    show HTCounts.zero.htHomeLeadToWin = 0 from rfl,
    show HTCounts.zero.htHomeLeadToDraw = 0 from rfl,
    show HTCounts.zero.htHomeLeadToLoss = 0 from rfl,
    show HTCounts.zero.htAwayLeadToWin = 0 from rfl,
    show HTCounts.zero.htAwayLeadToDraw = 0 from rfl,
    show HTCounts.zero.htAwayLeadToLoss = 0 from rfl] at i1 i2 i3
  exact ⟨by omega, by omega, by omega⟩

/-- C7: the half-time lead-hold percentages of `calculateDetailedStats` are 0
when the corresponding lead count is 0, and otherwise equal the lead-to-win
count over the lead count, times 100, rounded to one decimal; the value is a
total rational, never undefined. -/
theorem claim_C7_lead_hold_percentages (ms : List Match) :
    ((calculateDetailedStats ms).halfTimeAnalysis.ht_home_leads = 0 →
      (calculateDetailedStats ms).halfTimeAnalysis.home_lead_hold_percentage = 0) ∧
    (0 < (calculateDetailedStats ms).halfTimeAnalysis.ht_home_leads →
      (calculateDetailedStats ms).halfTimeAnalysis.home_lead_hold_percentage =
        round1 (((calculateDetailedStats ms).halfTimeAnalysis.ht_home_lead_to_win : ℚ) /
          ((calculateDetailedStats ms).halfTimeAnalysis.ht_home_leads : ℚ) * 100)) ∧
    ((calculateDetailedStats ms).halfTimeAnalysis.ht_away_leads = 0 →
      (calculateDetailedStats ms).halfTimeAnalysis.away_lead_hold_percentage = 0) ∧
    (0 < (calculateDetailedStats ms).halfTimeAnalysis.ht_away_leads →
      (calculateDetailedStats ms).halfTimeAnalysis.away_lead_hold_percentage =
        round1 (((calculateDetailedStats ms).halfTimeAnalysis.ht_away_lead_to_win : ℚ) /
          ((calculateDetailedStats ms).halfTimeAnalysis.ht_away_leads : ℚ) * 100)) := by
  obtain ⟨bh, ba⟩ := detailed_hold_percentages ms
  obtain ⟨b1, b2, b3, b4, b5, b6, b7, b8, b9⟩ := detailed_ht_counts ms
  refine ⟨?_, ?_, ?_, ?_⟩
  · intro h0
    rw [bh, if_neg]
    omega
  · intro hpos
    rw [bh, if_pos (by omega), b4, b1]
  · intro h0
    rw [ba, if_neg]
    omega
  · intro hpos
    rw [ba, if_pos (by omega), b7, b2]

/-- Witness for C7 at a one-match list whose match was led and won by the home
side at half-time: the positive-lead hypothesis holds and the hold percentage
equals the rounded ratio. -/
theorem claim_C7_lead_hold_percentages_witness :
    0 < (calculateDetailedStats
        [⟨"a", "b", 2, 0, some 1, some 0, .H, false, false, 0⟩]).halfTimeAnalysis.ht_home_leads ∧
    (calculateDetailedStats
        [⟨"a", "b", 2, 0, some 1, some 0, .H, false, false, 0⟩]).halfTimeAnalysis.home_lead_hold_percentage =
      round1 (((calculateDetailedStats
        [⟨"a", "b", 2, 0, some 1, some 0, .H, false, false, 0⟩]).halfTimeAnalysis.ht_home_lead_to_win : ℚ) /
        ((calculateDetailedStats
        [⟨"a", "b", 2, 0, some 1, some 0, .H, false, false, 0⟩]).halfTimeAnalysis.ht_home_leads : ℚ) * 100) :=
  ⟨by decide,
   (claim_C7_lead_hold_percentages _).2.1 (by decide)⟩

/-- C8: replacing the half-time goal fields (in particular, the `None`
encoding of nulls) never changes any full-time-derived component of
`calculateDetailedStats`, and a match whose half-time goals are both null is
classified as a half-time draw (it increments `ht_draws` and neither lead
count). -/
theorem claim_C8_null_halftime_handling (ms : List Match) (hh ha : Option Nat)
    (m : Match) (h1 : m.half_time_home_goals = none)
    (h2 : m.half_time_away_goals = none) :
    ((calculateDetailedStats (ms.map (setHalfTime hh ha))).basic =
        (calculateDetailedStats ms).basic ∧
      (calculateDetailedStats (ms.map (setHalfTime hh ha))).goalStats =
        (calculateDetailedStats ms).goalStats ∧
      (calculateDetailedStats (ms.map (setHalfTime hh ha))).overUnder =
        (calculateDetailedStats ms).overUnder ∧
      (calculateDetailedStats (ms.map (setHalfTime hh ha))).frequentResults =
        (calculateDetailedStats ms).frequentResults) ∧
    ((calculateDetailedStats (m :: ms)).halfTimeAnalysis.ht_draws =
        (calculateDetailedStats ms).halfTimeAnalysis.ht_draws + 1 ∧
      (calculateDetailedStats (m :: ms)).halfTimeAnalysis.ht_home_leads =
        (calculateDetailedStats ms).halfTimeAnalysis.ht_home_leads ∧
      (calculateDetailedStats (m :: ms)).halfTimeAnalysis.ht_away_leads =
        (calculateDetailedStats ms).halfTimeAnalysis.ht_away_leads) := by
  constructor
  · exact detailed_ft_components ms hh ha
  · have hd : (htStep HTCounts.zero m).htDraws = 1 := by
      simp [htStep, h1, h2, HTCounts.zero]
    have hhl : (htStep HTCounts.zero m).htHomeLeads = 0 := by
      simp [htStep, h1, h2, HTCounts.zero]
    have hal : (htStep HTCounts.zero m).htAwayLeads = 0 := by
      simp [htStep, h1, h2, HTCounts.zero]
    obtain ⟨b1, b2, b3, _, _, _, _, _, _⟩ := detailed_ht_counts ms
    obtain ⟨b1', b2', b3', _, _, _, _, _, _⟩ := detailed_ht_counts (m :: ms)
    have hfold : (m :: ms).foldl htStep HTCounts.zero =
        ms.foldl htStep (htStep HTCounts.zero m) := rfl
    obtain ⟨f1, f2, f3⟩ := htFold_field_add ms (htStep HTCounts.zero m)
    rw [hd] at f1
    rw [hhl] at f2
    rw [hal] at f3
    refine ⟨?_, ?_, ?_⟩ <;> rw [hfold] at b1' b2' b3' <;> omega

/-- Witness for C8 at concrete inputs: a match with null half-time goals
prepended to a one-match list bumps `ht_draws` by exactly one. -/
theorem claim_C8_null_halftime_handling_witness :
    (⟨"c", "d", 3, 1, none, none, .H, false, false, 5⟩ : Match).half_time_home_goals = none ∧
    (⟨"c", "d", 3, 1, none, none, .H, false, false, 5⟩ : Match).half_time_away_goals = none ∧
    (calculateDetailedStats
        ((⟨"c", "d", 3, 1, none, none, .H, false, false, 5⟩ : Match) ::
          [⟨"a", "b", 1, 0, some 1, some 0, .H, false, false, 0⟩])).halfTimeAnalysis.ht_draws =
      (calculateDetailedStats
        [⟨"a", "b", 1, 0, some 1, some 0, .H, false, false, 0⟩]).halfTimeAnalysis.ht_draws + 1 :=
  ⟨rfl, rfl,
   ((claim_C8_null_halftime_handling
      [⟨"a", "b", 1, 0, some 1, some 0, .H, false, false, 0⟩] (some 2) (some 2)
      ⟨"c", "d", 3, 1, none, none, .H, false, false, 5⟩ rfl rfl).2).1⟩

/-- C4: with an empty head-to-head query result, `getHeadToHeadFeatures`
returns normally, with zero/neutral fields and exactly the default transition
matrix of the specification (0.65/0.25/0.10, 0.35/0.30/0.35, 0.10/0.25/0.65). -/
theorem claim_C4_h2h_default_matrix (homeTeam awayTeam : String) :
    getHeadToHeadFeatures homeTeam awayTeam [] =
      { matches_played := 0, home_advantage := 0, avg_goals := 0, btts_rate := 0,
        transition_matrix :=
          { ht_h_to_ft_h := 0.65, ht_h_to_ft_d := 0.25, ht_h_to_ft_a := 0.10,
            ht_d_to_ft_h := 0.35, ht_d_to_ft_d := 0.30, ht_d_to_ft_a := 0.35,
            ht_a_to_ft_h := 0.10, ht_a_to_ft_d := 0.25, ht_a_to_ft_a := 0.65 } } := rfl

/-- C6 counterexample: the claim says the tier is a function of both the
combined confidence and the data-quality score, but in `predict`'s metadata
assembly the tier is `getConfidenceLevel(confidence_score)` alone — with
confidence 0.85 the tier is `HIGH` both at data-quality 0 and at
data-quality 1, so the quality score has no influence (at quality 0, no
combined confidence-and-quality score could reach the 0.8 `HIGH` threshold). -/
theorem claim_C6_tier_ignores_quality :
    (assemblePredictionMetadata "t" 0 0.85).prediction_confidence =
      ConfidenceLevel.HIGH ∧
    (assemblePredictionMetadata "t" 1 0.85).prediction_confidence =
      ConfidenceLevel.HIGH ∧
    (assemblePredictionMetadata "t" 0 0.85).data_quality_score = 0 := by
  refine ⟨?_, ?_, rfl⟩ <;>
    · show getConfidenceLevel 0.85 = ConfidenceLevel.HIGH
      rw [getConfidenceLevel, if_pos (by norm_num)]

/-- C6 amended: the qualitative confidence tier in the prediction metadata is
`HIGH` when the ensemble confidence score is ≥ 0.8, `MEDIUM` when it is in
[0.6, 0.8), and `LOW` otherwise; it is a function of the confidence score
only — the data-quality score does not enter. -/
theorem claim_C6_confidence_tier (ts : String) (q q' s : ℚ) :
    ((0.8 : ℚ) ≤ s →
      (assemblePredictionMetadata ts q s).prediction_confidence = .HIGH) ∧
    ((0.6 : ℚ) ≤ s → s < 0.8 →
      (assemblePredictionMetadata ts q s).prediction_confidence = .MEDIUM) ∧
    (s < 0.6 →
      (assemblePredictionMetadata ts q s).prediction_confidence = .LOW) ∧
    (assemblePredictionMetadata ts q s).prediction_confidence =
      (assemblePredictionMetadata ts q' s).prediction_confidence := by
  refine ⟨?_, ?_, ?_, rfl⟩
  · intro h
    show getConfidenceLevel s = ConfidenceLevel.HIGH
    rw [getConfidenceLevel, if_pos h]
  · intro h1 h2
    show getConfidenceLevel s = ConfidenceLevel.MEDIUM
    rw [getConfidenceLevel, if_neg (by linarith), if_pos h1]
  · intro h
    show getConfidenceLevel s = ConfidenceLevel.LOW
    rw [getConfidenceLevel, if_neg (by linarith), if_neg (by linarith)]

/-- Witness for the amended C6 at a concrete confidence score of 0.85: the
threshold hypothesis holds and the tier is `HIGH`. -/
theorem claim_C6_confidence_tier_witness :
    (0.8 : ℚ) ≤ 0.85 ∧
    (assemblePredictionMetadata "t" 0 0.85).prediction_confidence =
      ConfidenceLevel.HIGH :=
  ⟨by norm_num, (claim_C6_confidence_tier "t" 0 1 0.85).1 (by norm_num)⟩

/-- A resolved `promiseAll` yields exactly one output per input, in input
order. -/
lemma promiseAll_ok_spec (p : PredictionInput → Except String PredictionOutput) :
    ∀ (inputs : List PredictionInput) (rs : List PredictionOutput),
      promiseAll p inputs = Except.ok rs →
      rs.length = inputs.length ∧
      ∀ j (h1 : j < inputs.length) (h2 : j < rs.length),
        p (inputs.get ⟨j, h1⟩) = Except.ok (rs.get ⟨j, h2⟩) := by
  intro inputs
  induction inputs with
  | nil =>
    intro rs h
    simp only [promiseAll] at h
    cases h
    exact ⟨rfl, fun j h1 _ => absurd h1 (by simp)⟩
  | cons i t ih =>
    intro rs h
    simp only [promiseAll] at h
    cases hp : p i with
    | error e => rw [hp] at h; cases h
    | ok r =>
      rw [hp] at h
      cases hm : promiseAll p t with
      | error e => rw [hm] at h; cases h
      | ok ts =>
        rw [hm] at h
        cases h
        obtain ⟨hlen, hpos⟩ := ih ts hm
        refine ⟨by simp [hlen], ?_⟩
        intro j h1 h2
        cases j with
        | zero => simpa using hp
        | succ k =>
          have h1' : k < t.length := by simpa using h1
          have h2' : k < ts.length := by simpa using h2
          simpa using hpos k h1' h2'

/-- C5 counterexample: a two-element batch whose second element's prediction
fails makes `predictBatch` return `[]` — the whole batch is aborted by the
`catch`, rather than yielding a result list in one-to-one correspondence with
the inputs carrying a typed failure marker for the failed element only. -/
theorem claim_C5_batch_aborts_on_failure :
    predictBatch demoPredict
      [⟨"a", "b", none, none, none⟩, ⟨"FAIL", "c", none, none, none⟩] = [] ∧
    ([⟨"a", "b", none, none, none⟩,
      (⟨"FAIL", "c", none, none, none⟩ : PredictionInput)] : List PredictionInput).length = 2 ∧
    demoPredict ⟨"a", "b", none, none, none⟩ = Except.ok demoOutput := by
  refine ⟨?_, rfl, ?_⟩ <;> rfl

/-- C5 amended: when every element's prediction succeeds, `predictBatch`
returns the successful results in one-to-one correspondence with the inputs
in input order; when any element's prediction fails the whole batch is
aborted and `predictBatch` returns the empty list (no per-element failure
markers). -/
theorem claim_C5_batch_correspondence
    (p : PredictionInput → Except String PredictionOutput)
    (inputs : List PredictionInput) :
    (∀ rs, promiseAll p inputs = Except.ok rs →
      predictBatch p inputs = rs ∧ rs.length = inputs.length ∧
      ∀ j (h1 : j < inputs.length) (h2 : j < rs.length),
        p (inputs.get ⟨j, h1⟩) = Except.ok (rs.get ⟨j, h2⟩)) ∧
    (∀ e, promiseAll p inputs = Except.error e → predictBatch p inputs = []) := by
  constructor
  · intro rs hrs
    obtain ⟨hlen, hpos⟩ := promiseAll_ok_spec p inputs rs hrs
    exact ⟨by simp [predictBatch, hrs], hlen, hpos⟩
  · intro e he
    simp [predictBatch, he]

/-- Witness for the amended C5: a concrete all-successful one-element batch
(results in order, same length) and a concrete failing one-element batch
(empty result). -/
theorem claim_C5_batch_correspondence_witness :
    predictBatch demoPredict [⟨"a", "b", none, none, none⟩] = [demoOutput] ∧
    ([demoOutput] : List PredictionOutput).length =
      ([⟨"a", "b", none, none, none⟩] : List PredictionInput).length ∧
    predictBatch demoPredict [⟨"FAIL", "c", none, none, none⟩] = [] := by
  have hok : promiseAll demoPredict [⟨"a", "b", none, none, none⟩] =
      Except.ok [demoOutput] := rfl
  have herr : promiseAll demoPredict [⟨"FAIL", "c", none, none, none⟩] =
      Except.error "Predikciós hiba történt" := rfl
  obtain ⟨ha, hb, _⟩ :=
    (claim_C5_batch_correspondence demoPredict [⟨"a", "b", none, none, none⟩]).1
      [demoOutput] hok
  exact ⟨ha, hb,
    (claim_C5_batch_correspondence demoPredict [⟨"FAIL", "c", none, none, none⟩]).2
      "Predikciós hiba történt" herr⟩

/-- C9 counterexample: with five home wins (older) and one more-recent away
loss, `recent_form_overall` keeps only the five home values —
`[...homeForm, ...awayForm].slice(0, 5)` — whereas the last-5-matches sequence
over the team's matches overall (merged by time) starts with the away loss. -/
theorem claim_C9_overall_not_merged_last5 :
    (getTeamFeatures "T"
        [⟨"T", "X", 1, 0, none, none, .H, false, false, 5⟩,
         ⟨"T", "X", 1, 0, none, none, .H, false, false, 4⟩,
         ⟨"T", "X", 1, 0, none, none, .H, false, false, 3⟩,
         ⟨"T", "X", 1, 0, none, none, .H, false, false, 2⟩,
         ⟨"T", "X", 1, 0, none, none, .H, false, false, 1⟩]
        [⟨"Y", "T", 1, 0, none, none, .H, false, false, 100⟩]
        "ts").form_features.recent_form_overall = [1, 1, 1, 1, 1] ∧
    specOverallLastFive "T"
        [⟨"T", "X", 1, 0, none, none, .H, false, false, 5⟩,
         ⟨"T", "X", 1, 0, none, none, .H, false, false, 4⟩,
         ⟨"T", "X", 1, 0, none, none, .H, false, false, 3⟩,
         ⟨"T", "X", 1, 0, none, none, .H, false, false, 2⟩,
         ⟨"T", "X", 1, 0, none, none, .H, false, false, 1⟩]
        [⟨"Y", "T", 1, 0, none, none, .H, false, false, 100⟩] = [0, 1, 1, 1, 1] ∧
    (getTeamFeatures "T"
        [⟨"T", "X", 1, 0, none, none, .H, false, false, 5⟩,
         ⟨"T", "X", 1, 0, none, none, .H, false, false, 4⟩,
         ⟨"T", "X", 1, 0, none, none, .H, false, false, 3⟩,
         ⟨"T", "X", 1, 0, none, none, .H, false, false, 2⟩,
         ⟨"T", "X", 1, 0, none, none, .H, false, false, 1⟩]
        [⟨"Y", "T", 1, 0, none, none, .H, false, false, 100⟩]
        "ts").form_features.recent_form_overall ≠
      specOverallLastFive "T"
        [⟨"T", "X", 1, 0, none, none, .H, false, false, 5⟩,
         ⟨"T", "X", 1, 0, none, none, .H, false, false, 4⟩,
         ⟨"T", "X", 1, 0, none, none, .H, false, false, 3⟩,
         ⟨"T", "X", 1, 0, none, none, .H, false, false, 2⟩,
         ⟨"T", "X", 1, 0, none, none, .H, false, false, 1⟩]
        [⟨"Y", "T", 1, 0, none, none, .H, false, false, 100⟩] := by
  refine ⟨rfl, rfl, ?_⟩
  intro hcontra
  have hcontra' : ([1, 1, 1, 1, 1] : List ℚ) = [0, 1, 1, 1, 1] := hcontra
  norm_num at hcontra'

/-- C9 amended: the three form arrays of `getTeamFeatures` each have length at
most 5 with every entry in {0, 0.5, 1} from the team's perspective, and the
home/away arrays use only the 5 most recent matches of their split; however
`recent_form_overall` is the first 5 entries of home-form followed by
away-form (home-split values take precedence), not the merged most-recent-5
overall. -/
theorem claim_C9_form_arrays (team : String) (hd ad : List Match) (ts : String) :
    (getTeamFeatures team hd ad ts).form_features.recent_form_home.length ≤ 5 ∧
    (getTeamFeatures team hd ad ts).form_features.recent_form_away.length ≤ 5 ∧
    (getTeamFeatures team hd ad ts).form_features.recent_form_overall.length ≤ 5 ∧
    (∀ v ∈ (getTeamFeatures team hd ad ts).form_features.recent_form_home,
      v = 0 ∨ v = 0.5 ∨ v = 1) ∧
    (∀ v ∈ (getTeamFeatures team hd ad ts).form_features.recent_form_away,
      v = 0 ∨ v = 0.5 ∨ v = 1) ∧
    (∀ v ∈ (getTeamFeatures team hd ad ts).form_features.recent_form_overall,
      v = 0 ∨ v = 0.5 ∨ v = 1) ∧
    (getTeamFeatures team (hd.take 5) ad ts).form_features.recent_form_home =
      (getTeamFeatures team hd ad ts).form_features.recent_form_home ∧
    (getTeamFeatures team hd (ad.take 5) ts).form_features.recent_form_away =
      (getTeamFeatures team hd ad ts).form_features.recent_form_away ∧
    (getTeamFeatures team hd ad ts).form_features.recent_form_overall =
      ((getTeamFeatures team hd ad ts).form_features.recent_form_home ++
        (getTeamFeatures team hd ad ts).form_features.recent_form_away).take 5 := by
  have hmem : ∀ (l : List Match) (f : Match → ℚ),
      (∀ m : Match, f m = 0 ∨ f m = 0.5 ∨ f m = 1) →
      ∀ v ∈ l.map f, v = 0 ∨ v = 0.5 ∨ v = 1 := by
    intro l f hf v hv
    obtain ⟨m, _, hm⟩ := List.mem_map.mp hv
    rw [← hm]; exact hf m
  have hhome : ∀ m : Match,
      (if m.result_computed = MatchResult.H then (1 : ℚ) else
        if m.result_computed = MatchResult.D then 0.5 else 0) = 0 ∨
      (if m.result_computed = MatchResult.H then (1 : ℚ) else
        if m.result_computed = MatchResult.D then 0.5 else 0) = 0.5 ∨
      (if m.result_computed = MatchResult.H then (1 : ℚ) else
        if m.result_computed = MatchResult.D then 0.5 else 0) = 1 := by
    intro m; split_ifs <;> tauto
  have haway : ∀ m : Match,
      (if m.result_computed = MatchResult.A then (1 : ℚ) else
        if m.result_computed = MatchResult.D then 0.5 else 0) = 0 ∨
      (if m.result_computed = MatchResult.A then (1 : ℚ) else
        if m.result_computed = MatchResult.D then 0.5 else 0) = 0.5 ∨
      (if m.result_computed = MatchResult.A then (1 : ℚ) else
        if m.result_computed = MatchResult.D then 0.5 else 0) = 1 := by
    intro m; split_ifs <;> tauto
  refine ⟨?_, ?_, ?_, ?_, ?_, ?_, ?_, ?_, rfl⟩
  · simp [getTeamFeatures]
  · simp [getTeamFeatures]
  · simp [getTeamFeatures]
  · intro v hv
    simp only [getTeamFeatures] at hv
    exact hmem _ _ hhome v hv
  · intro v hv
    simp only [getTeamFeatures] at hv
    exact hmem _ _ haway v hv
  · intro v hv
    simp only [getTeamFeatures] at hv
    rcases List.mem_append.mp (List.take_subset _ _ hv) with h | h
    · exact hmem _ _ hhome v h
    · exact hmem _ _ haway v h
  · simp [getTeamFeatures, List.take_take]
  · simp [getTeamFeatures, List.take_take]

/-- Witness for the amended C9 at a concrete one-home-win team: the
form-array membership hypothesis is discharged at the value 1. -/
theorem claim_C9_form_arrays_witness :
    (1 : ℚ) ∈ (getTeamFeatures "T" [⟨"T", "X", 1, 0, none, none, .H, false, false, 1⟩]
        [] "ts").form_features.recent_form_home ∧
    ((1 : ℚ) = 0 ∨ (1 : ℚ) = 0.5 ∨ (1 : ℚ) = 1) :=
  ⟨by simp [getTeamFeatures],
   (claim_C9_form_arrays "T" [⟨"T", "X", 1, 0, none, none, .H, false, false, 1⟩] [] "ts").2.2.2.1
     1 (by simp [getTeamFeatures])⟩

section GroupingLemmas

variable {α : Type} [DecidableEq α]

/-- Membership is preserved by first-occurrence deduplication. -/
lemma mem_dedupKF {l : List α} {a : α} : a ∈ dedupKF l ↔ a ∈ l := by
  induction l with
  | nil => simp [dedupKF]
  | cons k t ih =>
    simp only [dedupKF, List.mem_cons, List.mem_filter, decide_eq_true_eq]
    constructor
    · rintro (rfl | ⟨hmem, _⟩)
      · exact Or.inl rfl
      · exact Or.inr (ih.mp hmem)
    · rintro (rfl | hmem)
      · exact Or.inl rfl
      · by_cases hak : a = k
        · exact Or.inl hak
        · exact Or.inr ⟨ih.mpr hmem, hak⟩

/-- First-occurrence deduplication has no duplicates. -/
lemma nodup_dedupKF (l : List α) : (dedupKF l).Nodup := by
  induction l with
  | nil => simp [dedupKF]
  | cons k t ih =>
    simp only [dedupKF, List.nodup_cons]
    refine ⟨?_, ih.filter _⟩
    intro hk
    have := (List.mem_filter.mp hk).2
    simp at this

/-- Filtering commutes with first-occurrence deduplication. -/
lemma dedupKF_filter (p : α → Bool) (l : List α) :
    (dedupKF l).filter p = dedupKF (l.filter p) := by
  induction l with
  | nil => simp [dedupKF]
  | cons k t ih =>
    by_cases hp : p k = true
    · have h1 : (k :: t).filter p = k :: t.filter p := by simp [List.filter_cons, hp]
      rw [h1]
      show (k :: (dedupKF t).filter (fun x => decide (x ≠ k))).filter p =
        k :: (dedupKF (t.filter p)).filter (fun x => decide (x ≠ k))
      rw [List.filter_cons, if_pos hp]
      congr 1
      rw [List.filter_comm, ih]
    · have h1 : (k :: t).filter p = t.filter p := by simp [List.filter_cons, hp]
      rw [h1]
      show (k :: (dedupKF t).filter (fun x => decide (x ≠ k))).filter p =
        dedupKF (t.filter p)
      rw [List.filter_cons, if_neg hp, List.filter_comm, ih, List.filter_eq_self]
      intro a ha
      have hpa : p a = true := (List.mem_filter.mp (mem_dedupKF.mp ha)).2
      have hak : a ≠ k := by
        intro hcontra
        rw [hcontra] at hpa
        exact hp hpa
      simpa using hak

/-- The first-occurrence index strictly increases along a deduplicated list. -/
lemma dedupKF_pairwise_fidx (l : List α) :
    (dedupKF l).Pairwise (fun a b => fidx a l < fidx b l) := by
  induction l with
  | nil => simp [dedupKF]
  | cons k t ih =>
    simp only [dedupKF, List.pairwise_cons]
    constructor
    · intro b hb
      have hbk : b ≠ k := by simpa using (List.mem_filter.mp hb).2
      simp [fidx, Ne.symm hbk]
    · have hfilter : ((dedupKF t).filter (fun x => decide (x ≠ k))).Pairwise
          (fun a b => fidx a t < fidx b t) := ih.filter _
      refine hfilter.imp_of_mem ?_
      intro a b ha hb hab
      have hak : a ≠ k := by simpa using (List.mem_filter.mp ha).2
      have hbk : b ≠ k := by simpa using (List.mem_filter.mp hb).2
      simp only [fidx, if_neg (Ne.symm hak), if_neg (Ne.symm hbk)]
      omega

end GroupingLemmas

/-- Count over a cons whose head matches. -/
lemma cnt_cons_eq [DecidableEq α] {a b : α} (h : b = a) (l : List α) :
    cnt a (b :: l) = cnt a l + 1 := by
  simp [cnt, h]
  omega

/-- Count over a cons whose head differs. -/
lemma cnt_cons_ne [DecidableEq α] {a b : α} (h : b ≠ a) (l : List α) :
    cnt a (b :: l) = cnt a l := by
  simp [cnt, h]

/-- Updating a fresh key appends it with count 1, preserving insertion order. -/
lemma insertFrequency_not_mem (l : List (String × Nat)) (k : String)
    (h : k ∉ l.map Prod.fst) : insertFrequency l k = l ++ [(k, 1)] := by
  induction l with
  | nil => rfl
  | cons p t ih =>
    obtain ⟨k', c⟩ := p
    simp only [List.map_cons, List.mem_cons] at h
    push_neg at h
    obtain ⟨h1, h2⟩ := h
    simp only [insertFrequency]
    rw [if_neg (fun hc => h1 hc.symm), ih h2]
    rfl

/-- Updating a present key bumps exactly that entry in place (keys unique). -/
lemma insertFrequency_mem (l : List (String × Nat)) (k : String)
    (hnd : (l.map Prod.fst).Nodup) (h : k ∈ l.map Prod.fst) :
    insertFrequency l k =
      l.map (fun p => if p.1 = k then (p.1, p.2 + 1) else p) := by
  induction l with
  | nil => simp at h
  | cons p t ih =>
    obtain ⟨k', c⟩ := p
    simp only [List.map_cons, List.nodup_cons] at hnd
    obtain ⟨hk', hndt⟩ := hnd
    simp only [List.map_cons, List.mem_cons] at h
    simp only [insertFrequency, List.map_cons]
    by_cases hkk : k' = k
    · rw [if_pos hkk]
      simp only [hkk, if_pos rfl]
      congr 1
      have hid : ∀ p ∈ t, (if p.1 = k then (p.1, p.2 + 1) else p) = p := by
        intro q hq
        rw [if_neg]
        intro hc
        apply hk'
        rw [hkk, ← hc]
        exact List.mem_map_of_mem Prod.fst hq
      symm
      calc t.map (fun p => if p.1 = k then (p.1, p.2 + 1) else p)
          = t.map id := List.map_congr_left hid
        _ = t := List.map_id t
    · rw [if_neg hkk, if_neg (fun hc : k' = k => hkk hc)]
      have hk : k ∈ t.map Prod.fst := by
        rcases h with h | h
        · exact absurd h.symm hkk
        · exact h
      rw [ih hndt hk]

/-- The frequency-object fold, characterised: existing keys keep their spot
and accumulate the new occurrences, fresh keys are appended in first-seen
order with their occurrence counts. -/
lemma foldl_insertFrequency (l : List String) : ∀ acc : List (String × Nat),
    (acc.map Prod.fst).Nodup →
    l.foldl insertFrequency acc =
      acc.map (fun p => (p.1, p.2 + cnt p.1 l)) ++
        (dedupKF (l.filter (fun x => decide (x ∉ acc.map Prod.fst)))).map
          (fun x => (x, cnt x l)) := by
  induction l with
  | nil =>
    intro acc hnd
    simp [cnt, dedupKF]
  | cons k t ih =>
    intro acc hnd
    rw [List.foldl_cons]
    by_cases hk : k ∈ acc.map Prod.fst
    · rw [insertFrequency_mem acc k hnd hk]
      have hkeys : ((acc.map (fun p => if p.1 = k then (p.1, p.2 + 1) else p)).map
          Prod.fst) = acc.map Prod.fst := by
        rw [List.map_map]
        apply List.map_congr_left
        intro p _
        by_cases hc : p.1 = k <;> simp [hc]
      have hnd' : (((acc.map (fun p => if p.1 = k then (p.1, p.2 + 1) else p)).map
          Prod.fst)).Nodup := by
        rw [hkeys]; exact hnd
      rw [ih _ hnd']
      congr 1
      · rw [List.map_map]
        apply List.map_congr_left
        intro p _
        by_cases hc : p.1 = k
        · have hb : (if p.1 = k then (p.1, p.2 + 1) else p) = (p.1, p.2 + 1) := by
            simp [hc]
          rw [Function.comp_apply, hb, cnt_cons_eq hc.symm]
          simp [Prod.mk.injEq]
          omega
        · have hb : (if p.1 = k then (p.1, p.2 + 1) else p) = p := by
            simp [hc]
          rw [Function.comp_apply, hb, cnt_cons_ne (fun hc2 => hc hc2.symm)]
      · rw [hkeys]
        have hfilter : (k :: t).filter (fun x => decide (x ∉ acc.map Prod.fst)) =
            t.filter (fun x => decide (x ∉ acc.map Prod.fst)) := by
          rw [List.filter_cons]
          simp [hk]
        rw [hfilter]
        apply List.map_congr_left
        intro x hx
        have hxnot : x ∉ acc.map Prod.fst := by
          simpa using (List.mem_filter.mp (mem_dedupKF.mp hx)).2
        have hxk : k ≠ x := fun hc => hxnot (hc ▸ hk)
        rw [cnt_cons_ne hxk]
    · rw [insertFrequency_not_mem acc k hk]
      have hkeys : ((acc ++ [(k, 1)]).map Prod.fst) = acc.map Prod.fst ++ [k] := by
        simp
      have hnd' : (((acc ++ [(k, 1)]).map Prod.fst)).Nodup := by
        rw [hkeys, List.nodup_append]
        refine ⟨hnd, List.nodup_singleton k, ?_⟩
        intro a ha hamem
        rcases List.mem_singleton.mp hamem with rfl
        exact hk ha
      rw [ih _ hnd']
      have hsplit : t.filter (fun x => decide (x ∉ (acc ++ [(k, 1)]).map Prod.fst)) =
          (t.filter (fun x => decide (x ∉ acc.map Prod.fst))).filter
            (fun x => decide (x ≠ k)) := by
        rw [List.filter_filter]
        apply List.filter_congr
        intro x _
        rw [hkeys]
        by_cases h1 : x ∈ acc.map Prod.fst <;> by_cases h2 : x = k <;>
          simp [h1, h2]
      rw [hsplit, ← dedupKF_filter]
      have hfilterc : (k :: t).filter (fun x => decide (x ∉ acc.map Prod.fst)) =
          k :: t.filter (fun x => decide (x ∉ acc.map Prod.fst)) := by
        rw [List.filter_cons]
        simp [hk]
      rw [hfilterc]
      show (acc ++ [(k, 1)]).map (fun p : String × Nat => (p.1, p.2 + cnt p.1 t)) ++
          ((dedupKF (t.filter (fun x => decide (x ∉ acc.map Prod.fst)))).filter
            (fun x => decide (x ≠ k))).map (fun x => (x, cnt x t)) =
        acc.map (fun p : String × Nat => (p.1, p.2 + cnt p.1 (k :: t))) ++
          (k :: (dedupKF (t.filter (fun x => decide (x ∉ acc.map Prod.fst)))).filter
            (fun x => decide (x ≠ k))).map (fun x => (x, cnt x (k :: t)))
      rw [List.map_append, List.map_cons, List.append_assoc]
      congr 1
      · apply List.map_congr_left
        intro p hp
        have hpk : k ≠ p.1 := by
          intro hc
          exact hk (hc ▸ List.mem_map_of_mem Prod.fst hp)
        rw [cnt_cons_ne hpk]
      · simp only [List.map_nil, List.map_cons, List.cons_append, List.nil_append]
        congr 1
        · rw [cnt_cons_eq rfl]
          simp [Prod.mk.injEq]
          omega
        · apply List.map_congr_left
          intro x hx
          have hxk : k ≠ x := by
            have := (List.mem_filter.mp hx).2
            simp at this
            exact fun hc => this hc.symm
          rw [cnt_cons_ne hxk]

/-- The frequency object enumerates the distinct scorelines in first-seen
order, each with its occurrence count. -/
lemma resultFrequency_eq (ms : List Match) :
    resultFrequency ms =
      (dedupKF (ms.map scorelineKey)).map
        (fun x => (x, cnt x (ms.map scorelineKey))) := by
  have h : resultFrequency ms = (ms.map scorelineKey).foldl insertFrequency [] := by
    rw [resultFrequency, List.foldl_map]
  rw [h, foldl_insertFrequency _ [] (by simp)]
  simp

/-- Membership in an ordered insert. -/
lemma mem_ordInsert {r : α → α → Bool} {x a : α} {l : List α} :
    a ∈ ordInsert r x l ↔ a = x ∨ a ∈ l := by
  induction l with
  | nil => simp [ordInsert]
  | cons y ys ih =>
    simp only [ordInsert]
    split_ifs
    · simp [List.mem_cons]
    · simp only [List.mem_cons, ih]
      tauto

/-- Length of an ordered insert. -/
lemma length_ordInsert (r : α → α → Bool) (x : α) (l : List α) :
    (ordInsert r x l).length = l.length + 1 := by
  induction l with
  | nil => rfl
  | cons y ys ih =>
    simp only [ordInsert]
    split_ifs <;> simp [ih]

/-- Membership is preserved by the stable sort. -/
lemma mem_sortD {r : α → α → Bool} {a : α} {l : List α} :
    a ∈ sortD r l ↔ a ∈ l := by
  induction l with
  | nil => simp [sortD]
  | cons x xs ih =>
    simp only [sortD, mem_ordInsert, List.mem_cons, ih]

/-- Length is preserved by the stable sort. -/
lemma length_sortD (r : α → α → Bool) (l : List α) :
    (sortD r l).length = l.length := by
  induction l with
  | nil => rfl
  | cons x xs ih => simp [sortD, length_ordInsert, ih]

/-- Ordered insertion preserves descending order on counts. -/
lemma ordInsert_count_sorted (x : ResultFreq) (t : List ResultFreq)
    (h : t.Pairwise (fun a b => b.count ≤ a.count)) :
    (ordInsert byCountDesc x t).Pairwise (fun a b => b.count ≤ a.count) := by
  induction t with
  | nil => simp [ordInsert]
  | cons y ys ih =>
    obtain ⟨hy, hys⟩ := List.pairwise_cons.mp h
    simp only [ordInsert]
    split_ifs with hr
    · have hxy : y.count ≤ x.count := by simpa [byCountDesc] using hr
      refine List.Pairwise.cons ?_ h
      intro z hz
      rcases List.mem_cons.mp hz with rfl | hz'
      · exact hxy
      · have := hy z hz'
        omega
    · have hyx : ¬ y.count ≤ x.count := by simpa [byCountDesc] using hr
      refine List.Pairwise.cons ?_ (ih hys)
      intro z hz
      rcases mem_ordInsert.mp hz with rfl | hz'
      · omega
      · exact hy z hz'

/-- The stable sort produces a list with counts in descending order. -/
lemma sortD_count_sorted (l : List ResultFreq) :
    (sortD byCountDesc l).Pairwise (fun a b => b.count ≤ a.count) := by
  induction l with
  | nil => simp [sortD]
  | cons x xs ih => exact ordInsert_count_sorted x _ ih

/-- Ordered insertion of an element older (by first-seen index `fi`) than the
whole list keeps the strict order: higher count first, ties by `fi`. -/
lemma ordInsert_stable (fi : ResultFreq → Nat) (x : ResultFreq)
    (t : List ResultFreq)
    (hp : t.Pairwise (fun a b =>
      b.count < a.count ∨ (b.count = a.count ∧ fi a < fi b)))
    (hx : ∀ y ∈ t, fi x < fi y) :
    (ordInsert byCountDesc x t).Pairwise (fun a b =>
      b.count < a.count ∨ (b.count = a.count ∧ fi a < fi b)) := by
  induction t with
  | nil => simp [ordInsert]
  | cons y ys ih =>
    obtain ⟨hy, hys⟩ := List.pairwise_cons.mp hp
    simp only [ordInsert]
    split_ifs with hr
    · have hxy : y.count ≤ x.count := by simpa [byCountDesc] using hr
      refine List.Pairwise.cons ?_ hp
      intro z hz
      rcases List.mem_cons.mp hz with rfl | hz'
      · rcases Nat.lt_or_ge z.count x.count with hlt | hge
        · exact Or.inl hlt
        · exact Or.inr ⟨by omega, hx z (List.mem_cons_self _ _)⟩
      · have hSz := hy z hz'
        have hz_le : z.count ≤ y.count := by rcases hSz with h | ⟨h, _⟩ <;> omega
        rcases Nat.lt_or_ge z.count x.count with hlt | hge
        · exact Or.inl hlt
        · exact Or.inr ⟨by omega, hx z (List.mem_cons_of_mem y hz')⟩
    · have hyx : ¬ y.count ≤ x.count := by simpa [byCountDesc] using hr
      refine List.Pairwise.cons ?_
        (ih hys (fun z hz => hx z (List.mem_cons_of_mem y hz)))
      intro z hz
      rcases mem_ordInsert.mp hz with rfl | hz'
      · exact Or.inl (by omega)
      · exact hy z hz'

/-- Stability of the sort: on a list whose `fi` values strictly increase (the
first-seen insertion order), the sorted list is ordered by count descending
with ties broken by `fi`. -/
lemma sortD_stable (fi : ResultFreq → Nat) :
    ∀ l : List ResultFreq, l.Pairwise (fun a b => fi a < fi b) →
    (sortD byCountDesc l).Pairwise (fun a b =>
      b.count < a.count ∨ (b.count = a.count ∧ fi a < fi b)) := by
  intro l
  induction l with
  | nil => intro _; simp [sortD]
  | cons x xs ih =>
    intro hp
    obtain ⟨hx, hxs⟩ := List.pairwise_cons.mp hp
    exact ordInsert_stable fi x _ (ih hxs)
      (fun y hy => hx y (mem_sortD.mp hy))

/-- The `frequentResults` component of `calculateDetailedStats` is the
dedicated computation (also on the empty list). -/
lemma detailed_frequentResults (ms : List Match) :
    (calculateDetailedStats ms).frequentResults = frequentResultsOf ms := by
  by_cases h : ms.length = 0
  · have hms : ms = [] := List.length_eq_zero.mp h
    subst hms
    rfl
  · simp [calculateDetailedStats, h]

/-- C3: the `frequentResults` list of `calculateDetailedStats` has at most 4
entries; it is sorted by count descending with ties broken by first-seen
insertion order of the scoreline; every entry's count is the number of
matches with exactly that "H-A" scoreline string and its percentage is
count over total times 100 rounded to one decimal; and any scoreline left
out only happens when the list is full (4 entries) with every kept entry's
count at least the left-out scoreline's count. -/
theorem claim_C3_frequent_results (ms : List Match) :
    (calculateDetailedStats ms).frequentResults.length ≤ 4 ∧
    (calculateDetailedStats ms).frequentResults.Pairwise (fun a b =>
      b.count < a.count ∨ (b.count = a.count ∧
        fidx a.result (ms.map scorelineKey) < fidx b.result (ms.map scorelineKey))) ∧
    (∀ e ∈ (calculateDetailedStats ms).frequentResults,
      e.count = cnt e.result (ms.map scorelineKey) ∧
      e.percentage = round1 ((e.count : ℚ) / (ms.length : ℚ) * 100)) ∧
    (∀ k ∈ ms.map scorelineKey,
      k ∉ ((calculateDetailedStats ms).frequentResults.map ResultFreq.result) →
      (calculateDetailedStats ms).frequentResults.length = 4 ∧
      ∀ e ∈ (calculateDetailedStats ms).frequentResults,
        cnt k (ms.map scorelineKey) ≤ e.count) := by
  rw [detailed_frequentResults ms]
  have hfr : frequentResultsOf ms =
      (sortD byCountDesc ((resultFrequency ms).map
        (fun p => ⟨p.1, p.2, round1 ((p.2 : ℚ) / (ms.length : ℚ) * 100)⟩))).take 4 := rfl
  rw [hfr]
  set keys := ms.map scorelineKey with hkeysdef
  set l' := (resultFrequency ms).map
    (fun p => (⟨p.1, p.2, round1 ((p.2 : ℚ) / (ms.length : ℚ) * 100)⟩ : ResultFreq))
    with hl'
  have hentries : ∀ e ∈ l', e.result ∈ keys ∧ e.count = cnt e.result keys ∧
      e.percentage = round1 ((e.count : ℚ) / (ms.length : ℚ) * 100) := by
    intro e he
    rw [hl', resultFrequency_eq, List.map_map] at he
    obtain ⟨k, hk, rfl⟩ := List.mem_map.mp he
    exact ⟨mem_dedupKF.mp hk, rfl, rfl⟩
  have hpair : l'.Pairwise (fun a b => fidx a.result keys < fidx b.result keys) := by
    rw [hl', resultFrequency_eq, List.map_map]
    exact (dedupKF_pairwise_fidx keys).map _ (fun a b h => h)
  have hsorted := sortD_count_sorted l'
  have hstable := sortD_stable (fun e => fidx e.result keys) l' hpair
  refine ⟨?_, ?_, ?_, ?_⟩
  · rw [List.length_take]
    omega
  · exact List.Pairwise.sublist (List.take_sublist 4 _) hstable
  · intro e he
    have he' : e ∈ l' := mem_sortD.mp (List.take_subset _ _ he)
    exact ⟨(hentries e he').2.1, (hentries e he').2.2⟩
  · intro k hkmem hknot
    have hklmem : (⟨k, cnt k keys,
        round1 ((cnt k keys : ℚ) / (ms.length : ℚ) * 100)⟩ : ResultFreq) ∈ l' := by
      rw [hl', resultFrequency_eq, List.map_map]
      exact List.mem_map_of_mem _ (mem_dedupKF.mpr hkmem)
    have hp_sort : (⟨k, cnt k keys,
        round1 ((cnt k keys : ℚ) / (ms.length : ℚ) * 100)⟩ : ResultFreq) ∈
        sortD byCountDesc l' := mem_sortD.mpr hklmem
    have hp_not_take : (⟨k, cnt k keys,
        round1 ((cnt k keys : ℚ) / (ms.length : ℚ) * 100)⟩ : ResultFreq) ∉
        (sortD byCountDesc l').take 4 := by
      intro hc
      exact hknot (List.mem_map_of_mem ResultFreq.result hc)
    have hp_drop : (⟨k, cnt k keys,
        round1 ((cnt k keys : ℚ) / (ms.length : ℚ) * 100)⟩ : ResultFreq) ∈
        (sortD byCountDesc l').drop 4 := by
      have hsplit := List.take_append_drop 4 (sortD byCountDesc l')
      rcases List.mem_append.mp (hsplit ▸ hp_sort) with h | h
      · exact absurd h hp_not_take
      · exact h
    constructor
    · have hlt := List.length_take 4 (sortD byCountDesc l')
      by_contra hlen4
      have hL : (sortD byCountDesc l').length < 4 := by omega
      have htake : (sortD byCountDesc l').take 4 = sortD byCountDesc l' :=
        List.take_of_length_le (by omega)
      rw [htake] at hp_not_take
      exact hp_not_take hp_sort
    · intro e he
      have hsplit := List.take_append_drop 4 (sortD byCountDesc l')
      have hPW : ((sortD byCountDesc l').take 4 ++
          (sortD byCountDesc l').drop 4).Pairwise (fun a b => b.count ≤ a.count) := by
        rw [hsplit]; exact hsorted
      have hrel := (List.pairwise_append.mp hPW).2.2 e he _ hp_drop
      simpa using hrel

/-- Witness for C3 at concrete lists: on two 2-1 matches the single entry
⟨"2-1", 2, 100⟩ is in the list with the correct count and rounded percentage;
on five matches with five distinct scorelines the fifth scoreline is left out
and the list is full with 4 entries. -/
theorem claim_C3_frequent_results_witness :
    ((⟨"2-1", 2, 100⟩ : ResultFreq) ∈ (calculateDetailedStats
        [⟨"a", "b", 2, 1, none, none, .H, false, false, 0⟩,
         ⟨"a", "b", 2, 1, none, none, .H, false, false, 1⟩]).frequentResults ∧
      (⟨"2-1", 2, 100⟩ : ResultFreq).count = cnt "2-1"
        (([⟨"a", "b", 2, 1, none, none, .H, false, false, 0⟩,
           ⟨"a", "b", 2, 1, none, none, .H, false, false, 1⟩] : List Match).map scorelineKey) ∧
      (⟨"2-1", 2, 100⟩ : ResultFreq).percentage =
        round1 (((⟨"2-1", 2, 100⟩ : ResultFreq).count : ℚ) /
          (([⟨"a", "b", 2, 1, none, none, .H, false, false, 0⟩,
             ⟨"a", "b", 2, 1, none, none, .H, false, false, 1⟩] : List Match).length : ℚ) * 100)) ∧
    ("5-0" ∈ ([⟨"a", "b", 1, 0, none, none, .H, false, false, 0⟩,
        ⟨"a", "b", 2, 0, none, none, .H, false, false, 1⟩,
        ⟨"a", "b", 3, 0, none, none, .H, false, false, 2⟩,
        ⟨"a", "b", 4, 0, none, none, .H, false, false, 3⟩,
        ⟨"a", "b", 5, 0, none, none, .H, false, false, 4⟩] : List Match).map scorelineKey ∧
      "5-0" ∉ ((calculateDetailedStats
        [⟨"a", "b", 1, 0, none, none, .H, false, false, 0⟩,
         ⟨"a", "b", 2, 0, none, none, .H, false, false, 1⟩,
         ⟨"a", "b", 3, 0, none, none, .H, false, false, 2⟩,
         ⟨"a", "b", 4, 0, none, none, .H, false, false, 3⟩,
         ⟨"a", "b", 5, 0, none, none, .H, false, false, 4⟩]).frequentResults.map
          ResultFreq.result) ∧
      (calculateDetailedStats
        [⟨"a", "b", 1, 0, none, none, .H, false, false, 0⟩,
         ⟨"a", "b", 2, 0, none, none, .H, false, false, 1⟩,
         ⟨"a", "b", 3, 0, none, none, .H, false, false, 2⟩,
         ⟨"a", "b", 4, 0, none, none, .H, false, false, 3⟩,
         ⟨"a", "b", 5, 0, none, none, .H, false, false, 4⟩]).frequentResults.length = 4) := by
  have hfr0 : (calculateDetailedStats
      [⟨"a", "b", 2, 1, none, none, .H, false, false, 0⟩,
       ⟨"a", "b", 2, 1, none, none, .H, false, false, 1⟩]).frequentResults =
      [⟨"2-1", 2, 100⟩] := by
    rw [detailed_frequentResults]
    show (sortD byCountDesc (([("2-1", 2)] : List (String × Nat)).map
      (fun p => ⟨p.1, p.2, round1 ((p.2 : ℚ) / ((2 : Nat) : ℚ) * 100)⟩))).take 4 =
      [⟨"2-1", 2, 100⟩]
    norm_num [sortD, ordInsert, round1, round_eq]
  have hmem0 : (⟨"2-1", 2, 100⟩ : ResultFreq) ∈ (calculateDetailedStats
      [⟨"a", "b", 2, 1, none, none, .H, false, false, 0⟩,
       ⟨"a", "b", 2, 1, none, none, .H, false, false, 1⟩]).frequentResults := by
    rw [hfr0]
    exact List.mem_singleton.mpr rfl
  have hk1 : "5-0" ∈ ([⟨"a", "b", 1, 0, none, none, .H, false, false, 0⟩,
      ⟨"a", "b", 2, 0, none, none, .H, false, false, 1⟩,
      ⟨"a", "b", 3, 0, none, none, .H, false, false, 2⟩,
      ⟨"a", "b", 4, 0, none, none, .H, false, false, 3⟩,
      ⟨"a", "b", 5, 0, none, none, .H, false, false, 4⟩] : List Match).map scorelineKey := by
    decide
  have hknot : "5-0" ∉ ((calculateDetailedStats
      [⟨"a", "b", 1, 0, none, none, .H, false, false, 0⟩,
       ⟨"a", "b", 2, 0, none, none, .H, false, false, 1⟩,
       ⟨"a", "b", 3, 0, none, none, .H, false, false, 2⟩,
       ⟨"a", "b", 4, 0, none, none, .H, false, false, 3⟩,
       ⟨"a", "b", 5, 0, none, none, .H, false, false, 4⟩]).frequentResults.map
        ResultFreq.result) := by
    decide
  obtain ⟨hc, hpct⟩ := (claim_C3_frequent_results
    [⟨"a", "b", 2, 1, none, none, .H, false, false, 0⟩,
     ⟨"a", "b", 2, 1, none, none, .H, false, false, 1⟩]).2.2.1 ⟨"2-1", 2, 100⟩ hmem0
  obtain ⟨hlen4, _⟩ := (claim_C3_frequent_results
    [⟨"a", "b", 1, 0, none, none, .H, false, false, 0⟩,
     ⟨"a", "b", 2, 0, none, none, .H, false, false, 1⟩,
     ⟨"a", "b", 3, 0, none, none, .H, false, false, 2⟩,
     ⟨"a", "b", 4, 0, none, none, .H, false, false, 3⟩,
     ⟨"a", "b", 5, 0, none, none, .H, false, false, 4⟩]).2.2.2 "5-0" hk1 hknot
  exact ⟨⟨hmem0, hc, hpct⟩, hk1, hknot, hlen4⟩

end StatWizardry
